import Mathlib

/-!
Shallow embedding of the STOpenBootloader core and flash engine
(`src/Core/openbl_core.c`, `src/Interfaces/Patterns/FLASH/flash_interface.c`).

Machine integers are modelled as `Nat` with explicit truncation where the C
code relies on fixed-width overflow.  Hardware (flash status register,
per-attempt erase outcomes, transport detection results) is modelled as
explicit inputs; memory-mapped side effects (option-byte programming,
program/erase operations, bytes sent on the wire) are returned as data.
Conditional compilation on `FLASH_OPTR_DBANK` (dual-bank parts) is a `Bool`
parameter.
-/

/-- CMSIS `ErrorStatus` enumeration returned by the bootloader memory
operations. -/
inductive ErrorStatus where
  | SUCCESS
  | ERROR
deriving DecidableEq, Repr

/-- HAL status enumeration returned by the wait/erase primitives. -/
inductive HALStatus where
  | HAL_OK
  | HAL_ERROR
  | HAL_BUSY
  | HAL_TIMEOUT
deriving DecidableEq, Repr

/-- Little-endian 16-bit read `*(uint16_t *)(p + i)` over a byte map
(the Cortex-M target is little-endian). -/
def u16le (data : Nat → Nat) (i : Nat) : Nat :=
  data i % 256 + 256 * (data (i + 1) % 256)

/-! ## Page erase (`OPENBL_FLASH_Erase`) -/

/-- Bank selector constant `FLASH_BANK_1` (HAL). -/
def FLASH_BANK_1 : Nat := 1

/-- Bank selector constant `FLASH_BANK_2` (HAL). -/
def FLASH_BANK_2 : Nat := 2

/-- Result of the page-erase loop of `OPENBL_FLASH_Erase`:
`errors` is the local failure counter, `reads` lists the 16-bit page index
read in each processed iteration, and `attempts` lists the
`(page, bank)` pairs actually submitted to `OPENBL_FLASH_ExtendedErase`. -/
structure EraseLoopResult where
  errors : Nat
  reads : List Nat
  attempts : List (Nat × Nat)
deriving DecidableEq, Repr

/-- Body of the `for` loop of `OPENBL_FLASH_Erase` (lines 391-424).
`fuel` is the remaining number of iterations, `counter` the loop counter.
`hw k` is the hardware outcome of the `k`-th call to
`OPENBL_FLASH_ExtendedErase` (`true` = `HAL_OK`).  A page index `<= 127`
targets bank 1; on dual-bank parts an index `<= 255` targets bank 2;
any other index sets `status = ERROR`, skips the erase, and the status is
reset to `SUCCESS` before the next iteration. -/
def eraseLoop (dbank : Bool) (hw : Nat → Bool) (data : Nat → Nat) :
    Nat → Nat → EraseLoopResult
  | 0, _ => ⟨0, [], []⟩
  | fuel + 1, counter =>
    let page := u16le data (2 + 2 * counter)
    let rest := eraseLoop dbank hw data fuel (counter + 1)
    if page ≤ 127 then
      { errors := (if hw counter then 0 else 1) + rest.errors,
        reads := page :: rest.reads,
        attempts := (page, FLASH_BANK_1) :: rest.attempts }
    else if dbank && decide (page ≤ 255) then
      { errors := (if hw counter then 0 else 1) + rest.errors,
        reads := page :: rest.reads,
        attempts := (page, FLASH_BANK_2) :: rest.attempts }
    else
      -- status = ERROR for this page only; erase skipped; status reset
      { errors := rest.errors,
        reads := page :: rest.reads,
        attempts := rest.attempts }

/-- `OPENBL_FLASH_Erase` (flash_interface.c lines 370-439).
`data` is the byte buffer at `p_Data`, `dataLength` the `DataLength`
argument.  The declared page count is the little-endian 16-bit value at
offset 0; the loop runs while `counter < pages_number` and
`counter < DataLength / 2`; the final status is `ERROR` iff the local
`errors` counter is positive. -/
def OPENBL_FLASH_Erase (dbank : Bool) (hw : Nat → Bool) (data : Nat → Nat)
    (dataLength : Nat) : ErrorStatus × EraseLoopResult :=
  let pages_number := u16le data 0
  let r := eraseLoop dbank hw data (min pages_number (dataLength / 2)) 0
  (if r.errors > 0 then .ERROR else .SUCCESS, r)

/-- Page-in-range test of the erase loop: bank 1 for indices `<= 127`,
bank 2 for indices `128..255` on dual-bank parts. -/
def pageInRange (dbank : Bool) (page : Nat) : Bool :=
  decide (page ≤ 127) || (dbank && decide (page ≤ 255))

/-- Page index read in iteration `k` of the erase loop. -/
def pageAt (data : Nat → Nat) (k : Nat) : Nat :=
  u16le data (2 + 2 * k)

/-! ## Mass erase (`OPENBL_FLASH_MassErase`) -/

/-- Modelled from the spec: the mass-erase selector constants
`FLASH_MASS_ERASE`, `FLASH_BANK1_ERASE`, `FLASH_BANK2_ERASE` live in
`flash_interface.h`, which is not under `src/`; the spec gives the 2-byte
little-endian selector values 0 = all banks, 1 = bank one, 2 = bank two. -/
def FLASH_MASS_ERASE : Nat := 0

/-- Modelled from the spec: selector for bank one (see `FLASH_MASS_ERASE`). -/
def FLASH_BANK1_ERASE : Nat := 1

/-- Modelled from the spec: selector for bank two (see `FLASH_MASS_ERASE`). -/
def FLASH_BANK2_ERASE : Nat := 2

/-- `OPENBL_FLASH_MassErase` (flash_interface.c lines 304-360).
`hw` is the outcome of `OPENBL_FLASH_ExtendedErase` when it is invoked.
The second component records the erase actually performed: `some banks`
when `OPENBL_FLASH_ExtendedErase` was called with that `Banks` field,
`none` when no erase was started. -/
def OPENBL_FLASH_MassErase (dbank : Bool) (hw : HALStatus) (data : Nat → Nat)
    (dataLength : Nat) : ErrorStatus × Option Nat :=
  if 2 ≤ dataLength then
    let bank_option := u16le data 0
    if bank_option = FLASH_MASS_ERASE then
      (if hw = HALStatus.HAL_OK then .SUCCESS else .ERROR, some 0)
    else if bank_option = FLASH_BANK1_ERASE then
      (if hw = HALStatus.HAL_OK then .SUCCESS else .ERROR, some FLASH_BANK_1)
    else if dbank && decide (bank_option = FLASH_BANK2_ERASE) then
      (if hw = HALStatus.HAL_OK then .SUCCESS else .ERROR, some FLASH_BANK_2)
    else
      (.ERROR, none)
  else
    (.ERROR, none)

/-! ## Read-out protection (`OPENBL_FLASH_SetReadOutProtectionLevel`) -/

/-- Modelled from the spec: RDP level constants (`OB_RDP_LEVEL0/1/2` come
from the HAL header, not under `src/`); the spec describes the levels as
0 (none), 1 (protected), 2 (permanently closed). -/
def OB_RDP_LEVEL0 : Nat := 0

/-- Modelled from the spec: RDP level 1 (see `OB_RDP_LEVEL0`). -/
def OB_RDP_LEVEL1 : Nat := 1

/-- Modelled from the spec: RDP level 2 (see `OB_RDP_LEVEL0`). -/
def OB_RDP_LEVEL2 : Nat := 2

/-- Observable effects of one `OPENBL_FLASH_SetReadOutProtectionLevel` call:
the RDP levels passed to `HAL_FLASHEx_OBProgram`, whether the option-byte
registers were unlocked, and whether the reset post-processing callback
`OPENBL_OB_Launch` was registered via `Common_SetPostProcessingCallback`. -/
structure RDPCallResult where
  obProgramWrites : List Nat
  obUnlocked : Bool
  postCallbackRegistered : Bool
deriving DecidableEq, Repr

/-- `OPENBL_FLASH_SetReadOutProtectionLevel` (flash_interface.c lines
239-257).  The guard compares the requested `Level` with `OB_RDP_LEVEL2`;
the current level is never read.  The reset callback registration is
outside the guard, so it happens on every call. -/
def OPENBL_FLASH_SetReadOutProtectionLevel (level : Nat) : RDPCallResult :=
  if level ≠ OB_RDP_LEVEL2 then
    { obProgramWrites := [level], obUnlocked := true,
      postCallbackRegistered := true }
  else
    { obProgramWrites := [], obUnlocked := false,
      postCallbackRegistered := true }

/-! ## Programming (`OPENBL_FLASH_Write`) -/

/-- One quad-word chunk of 16 bytes starting at offset `base` of the input
buffer, as passed to `OPENBL_FLASH_ProgramQuadWord`. -/
def quadChunk (data : Nat → Nat) (base : Nat) : List Nat :=
  (List.range 16).map fun i => data (base + i) % 256

/-- Scratch buffer `remainder_data` of the quad-word path (lines 133-154):
the first `remainder` bytes are copied from the tail of the input buffer,
the bytes from `remainder` up to 16 are filled with `0xFF`. -/
def remainderData (data : Nat → Nat) (length remainder : Nat) : List Nat :=
  (List.range 16).map fun i =>
    if i < remainder then data (length + i) % 256 else 0xFF

/-- `OPENBL_FLASH_Write`, quad-word build (`FLASH_TYPEPROGRAM_QUADWORD`
defined, lines 125-177): the result is the list of
`(address, 16 bytes)` program operations issued, in order.
`remainder = DataLength & 0xF`; when nonzero the length is rounded down and
one extra quad-word is programmed from the scratch buffer. -/
def OPENBL_FLASH_Write_quad (address : Nat) (data : Nat → Nat)
    (dataLength : Nat) : List (Nat × List Nat) :=
  let remainder := dataLength % 16
  let length := dataLength - remainder
  let main := (List.range (length / 16)).map fun k =>
    (address + 16 * k, quadChunk data (16 * k))
  if remainder ≠ 0 then
    main ++ [(address + length, remainderData data length remainder)]
  else
    main

/-- `OPENBL_FLASH_Write`, double-word build (lines 155-186): the result is
the list of addresses passed to `OPENBL_FLASH_ProgramDoubleWord`, each
programming 8 bytes read from the input buffer (one unit possibly past its
nominal end).  The loop bound is `(DataLength & 0xFFFFFFF8) + 8` computed
in `uint32_t` arithmetic, hence the `% 2^32`. -/
def OPENBL_FLASH_Write_dw (address : Nat) (dataLength : Nat) : List Nat :=
  let length :=
    if dataLength % 8 ≠ 0 then (dataLength - dataLength % 8 + 8) % 2 ^ 32
    else dataLength
  (List.range (length / 8)).map fun k => address + 8 * k

/-! ## Busy/error polling (`OPENBL_FLASH_WaitForLastOperation`,
`OPENBL_FLASH_SendBusyState`) -/

/-- Snapshot of the flash status register as seen by the wait routines:
`busyCount` is the number of polls for which `FLASH_FLAG_BSY` reads as set
before it clears, `srErrors` the value of `FLASH->SR & FLASH_FLAG_SR_ERRORS`
latched once busy clears, `eop` the `FLASH_FLAG_EOP` flag. -/
structure FlashSR where
  busyCount : Nat
  srErrors : Nat
  eop : Bool
deriving DecidableEq, Repr

/-- Busy loop of `OPENBL_FLASH_WaitForLastOperation` (lines 721-727):
`while (BSY) { if (tick++ > Timeout) return HAL_TIMEOUT; }`.
Returns `true` when the loop exits with `HAL_TIMEOUT`. -/
def waitBusyLoop : Nat → Nat → Nat → Bool
  | 0, _, _ => false
  | busy + 1, tick, bound =>
    if tick > bound then true else waitBusyLoop busy (tick + 1) bound

/-- Busy loop of `OPENBL_FLASH_SendBusyState` (lines 637-650): identical
bound check, but each non-timeout busy iteration additionally sends one
busy byte on the I2C transport.  Returns `(timedOut, busyBytesSent)`. -/
def sendBusyLoop : Nat → Nat → Nat → Bool × Nat
  | 0, _, _ => (false, 0)
  | busy + 1, tick, bound =>
    if tick > bound then (true, 0)
    else
      let r := sendBusyLoop busy (tick + 1) bound
      (r.1, r.2 + 1)

/-- `OPENBL_FLASH_WaitForLastOperation` (flash_interface.c lines 708-781).
Arguments: the iteration bound (`Timeout`), the hardware status register,
and the value of `FlashProcess.ErrorCode` at entry.  Returns the HAL
status, the updated status register (error and EOP flags cleared as the
code clears them), and the value of `FlashProcess.ErrorCode` at exit. -/
def OPENBL_FLASH_WaitForLastOperation (bound : Nat) (hw : FlashSR)
    (errorCode : Nat) : HALStatus × FlashSR × Nat :=
  if waitBusyLoop hw.busyCount 0 bound then
    (.HAL_TIMEOUT, hw, errorCode)
  else
    let error := hw.srErrors
    if error ≠ 0 then
      (.HAL_ERROR, { hw with busyCount := 0, srErrors := 0 },
        errorCode ||| error)
    else
      (.HAL_OK, { hw with busyCount := 0, eop := false }, errorCode)

/-- `OPENBL_FLASH_SendBusyState` (flash_interface.c lines 625-701).
Same wait as `OPENBL_FLASH_WaitForLastOperation` except that a busy byte
is sent on every non-timeout busy poll and the latched error flags are
cleared without being accumulated into `FlashProcess.ErrorCode`.
Returns the HAL status, updated status register, `FlashProcess.ErrorCode`
at exit, and the number of busy bytes sent. -/
def OPENBL_FLASH_SendBusyState (bound : Nat) (hw : FlashSR)
    (errorCode : Nat) : HALStatus × FlashSR × Nat × Nat :=
  let r := sendBusyLoop hw.busyCount 0 bound
  if r.1 then
    (.HAL_TIMEOUT, hw, errorCode, r.2)
  else
    let error := hw.srErrors
    if error ≠ 0 then
      (.HAL_ERROR, { hw with busyCount := 0, srErrors := 0 },
        errorCode, r.2)
    else
      (.HAL_OK, { hw with busyCount := 0, eop := false }, errorCode, r.2)

/-! ## Core dispatcher (`openbl_core.c`) -/

/-- Modelled from the spec: the wire opcode byte values are declared in
`openbl_core.h`, which is not under `src/`; the spec fixes them "per the
underlying protocol spec" (the STM32 system bootloader protocol values are
used here).  Only their distinctness matters to the dispatcher. -/
def CMD_GET_COMMAND : Nat := 0x00

/-- Modelled from the spec: get-version opcode (see `CMD_GET_COMMAND`). -/
def CMD_GET_VERSION : Nat := 0x01

/-- Modelled from the spec: get-id opcode (see `CMD_GET_COMMAND`). -/
def CMD_GET_ID : Nat := 0x02

/-- Modelled from the spec: speed opcode (see `CMD_GET_COMMAND`). -/
def CMD_SPEED : Nat := 0x03

/-- Modelled from the spec: read-memory opcode (see `CMD_GET_COMMAND`). -/
def CMD_READ_MEMORY : Nat := 0x11

/-- Modelled from the spec: go opcode (see `CMD_GET_COMMAND`). -/
def CMD_GO : Nat := 0x21

/-- Modelled from the spec: write-memory opcode (see `CMD_GET_COMMAND`). -/
def CMD_WRITE_MEMORY : Nat := 0x31

/-- Modelled from the spec: non-secure write-memory opcode. -/
def CMD_NS_WRITE_MEMORY : Nat := 0x32

/-- Modelled from the spec: legacy erase opcode (see `CMD_GET_COMMAND`). -/
def CMD_LEG_ERASE_MEMORY : Nat := 0x43

/-- Modelled from the spec: extended erase opcode (see `CMD_GET_COMMAND`). -/
def CMD_EXT_ERASE_MEMORY : Nat := 0x44

/-- Modelled from the spec: non-secure erase opcode. -/
def CMD_NS_ERASE_MEMORY : Nat := 0x45

/-- Modelled from the spec: special-command opcode. -/
def CMD_SPECIAL_COMMAND : Nat := 0x50

/-- Modelled from the spec: extended-special-command opcode. -/
def CMD_EXTENDED_SPECIAL_COMMAND : Nat := 0x51

/-- Modelled from the spec: write-protect opcode. -/
def CMD_WRITE_PROTECT : Nat := 0x63

/-- Modelled from the spec: non-secure write-protect opcode. -/
def CMD_NS_WRITE_PROTECT : Nat := 0x64

/-- Modelled from the spec: write-unprotect opcode. -/
def CMD_WRITE_UNPROTECT : Nat := 0x73

/-- Modelled from the spec: non-secure write-unprotect opcode. -/
def CMD_NS_WRITE_UNPROTECT : Nat := 0x74

/-- Modelled from the spec: read-protect opcode. -/
def CMD_READ_PROTECT : Nat := 0x82

/-- Modelled from the spec: non-secure read-protect opcode. -/
def CMD_NS_READ_PROTECT : Nat := 0x83

/-- Modelled from the spec: read-unprotect opcode. -/
def CMD_READ_UNPROTECT : Nat := 0x92

/-- Modelled from the spec: non-secure read-unprotect opcode. -/
def CMD_NS_READ_UNPROTECT : Nat := 0x93

/-- Modelled from the spec: `NACK_BYTE`, the single negative-acknowledgement
byte, is declared in `openbl_core.h` (not under `src/`). -/
def NACK_BYTE : Nat := 0x1F

/-- Presence of the optional function pointers of a transport's
`OPENBL_OpsTypeDef` capability table (a `NULL` pointer is `false`). -/
structure OPENBL_OpsTypeDef where
  hasInit : Bool
  hasDeInit : Bool
  hasDetection : Bool
  hasGetCommandOpcode : Bool
  hasSendByte : Bool
deriving DecidableEq, Repr

/-- Presence of the optional handlers of a transport's command table
(`OPENBL_CommandsTypeDef`; a `NULL` handler is `false`). -/
structure OPENBL_CommandsTypeDef where
  GetCommand : Bool
  GetVersion : Bool
  GetID : Bool
  ReadMemory : Bool
  WriteMemory : Bool
  Go : Bool
  ReadoutProtect : Bool
  ReadoutUnprotect : Bool
  EraseMemory : Bool
  WriteProtect : Bool
  WriteUnprotect : Bool
  NsWriteMemory : Bool
  NsEraseMemory : Bool
  NsWriteProtect : Bool
  NsWriteUnprotect : Bool
  NsReadoutProtect : Bool
  NsReadoutUnprotect : Bool
  Speed : Bool
  SpecialCommand : Bool
  ExtendedSpecialCommand : Bool
deriving DecidableEq, Repr

/-- Identity of the command handler the dispatcher invoked. -/
inductive CmdSlot where
  | getCommand
  | getVersion
  | getID
  | readMemory
  | writeMemory
  | go
  | readoutProtect
  | readoutUnprotect
  | eraseMemory
  | writeProtect
  | writeUnprotect
  | nsWriteMemory
  | nsEraseMemory
  | nsWriteProtect
  | nsWriteUnprotect
  | nsReadoutProtect
  | nsReadoutUnprotect
  | speed
  | specialCommand
  | extendedSpecialCommand
deriving DecidableEq, Repr

/-- One `case` of the `switch` in `OPENBL_CommandProcess`: if the handler is
present invoke it, otherwise send `NACK_BYTE` when the transport has a
send-byte capability.  The result is `(bytes sent, handler invoked)`. -/
def caseInvoke (ops : OPENBL_OpsTypeDef) (present : Bool) (slot : CmdSlot) :
    List Nat × Option CmdSlot :=
  if present then ([], some slot)
  else if ops.hasSendByte then ([NACK_BYTE], none)
  else ([], none)

/-- `OPENBL_CommandProcess` (openbl_core.c lines 173-487) for a received
opcode byte: nothing happens when the transport has no get-opcode
capability; otherwise the opcode selects a `case` and an unknown opcode
falls to the `default` branch, which sends `NACK_BYTE` when possible.
The result is `(bytes sent, handler invoked)`. -/
def OPENBL_CommandProcess (ops : OPENBL_OpsTypeDef)
    (cmd : OPENBL_CommandsTypeDef) (opcode : Nat) :
    List Nat × Option CmdSlot :=
  if ops.hasGetCommandOpcode then
    if opcode = CMD_GET_COMMAND then caseInvoke ops cmd.GetCommand .getCommand
    else if opcode = CMD_GET_VERSION then
      caseInvoke ops cmd.GetVersion .getVersion
    else if opcode = CMD_GET_ID then caseInvoke ops cmd.GetID .getID
    else if opcode = CMD_READ_MEMORY then
      caseInvoke ops cmd.ReadMemory .readMemory
    else if opcode = CMD_WRITE_MEMORY then
      caseInvoke ops cmd.WriteMemory .writeMemory
    else if opcode = CMD_GO then caseInvoke ops cmd.Go .go
    else if opcode = CMD_READ_PROTECT then
      caseInvoke ops cmd.ReadoutProtect .readoutProtect
    else if opcode = CMD_READ_UNPROTECT then
      caseInvoke ops cmd.ReadoutUnprotect .readoutUnprotect
    else if opcode = CMD_EXT_ERASE_MEMORY then
      caseInvoke ops cmd.EraseMemory .eraseMemory
    else if opcode = CMD_LEG_ERASE_MEMORY then
      caseInvoke ops cmd.EraseMemory .eraseMemory
    else if opcode = CMD_WRITE_PROTECT then
      caseInvoke ops cmd.WriteProtect .writeProtect
    else if opcode = CMD_WRITE_UNPROTECT then
      caseInvoke ops cmd.WriteUnprotect .writeUnprotect
    else if opcode = CMD_NS_WRITE_MEMORY then
      caseInvoke ops cmd.NsWriteMemory .nsWriteMemory
    else if opcode = CMD_NS_ERASE_MEMORY then
      caseInvoke ops cmd.NsEraseMemory .nsEraseMemory
    else if opcode = CMD_NS_WRITE_PROTECT then
      caseInvoke ops cmd.NsWriteProtect .nsWriteProtect
    else if opcode = CMD_NS_WRITE_UNPROTECT then
      caseInvoke ops cmd.NsWriteUnprotect .nsWriteUnprotect
    else if opcode = CMD_NS_READ_PROTECT then
      caseInvoke ops cmd.NsReadoutProtect .nsReadoutProtect
    else if opcode = CMD_NS_READ_UNPROTECT then
      caseInvoke ops cmd.NsReadoutUnprotect .nsReadoutUnprotect
    else if opcode = CMD_SPEED then caseInvoke ops cmd.Speed .speed
    else if opcode = CMD_SPECIAL_COMMAND then
      caseInvoke ops cmd.SpecialCommand .specialCommand
    else if opcode = CMD_EXTENDED_SPECIAL_COMMAND then
      caseInvoke ops cmd.ExtendedSpecialCommand .extendedSpecialCommand
    else if ops.hasSendByte then ([NACK_BYTE], none)
    else ([], none)
  else ([], none)

/-- Handler-table lookup implied by the dispatch `switch`: the presence bit
of the handler an opcode routes to (`false` for an unknown opcode). -/
def handlerPresent (cmd : OPENBL_CommandsTypeDef) (opcode : Nat) : Bool :=
  if opcode = CMD_GET_COMMAND then cmd.GetCommand
  else if opcode = CMD_GET_VERSION then cmd.GetVersion
  else if opcode = CMD_GET_ID then cmd.GetID
  else if opcode = CMD_READ_MEMORY then cmd.ReadMemory
  else if opcode = CMD_WRITE_MEMORY then cmd.WriteMemory
  else if opcode = CMD_GO then cmd.Go
  else if opcode = CMD_READ_PROTECT then cmd.ReadoutProtect
  else if opcode = CMD_READ_UNPROTECT then cmd.ReadoutUnprotect
  else if opcode = CMD_EXT_ERASE_MEMORY then cmd.EraseMemory
  else if opcode = CMD_LEG_ERASE_MEMORY then cmd.EraseMemory
  else if opcode = CMD_WRITE_PROTECT then cmd.WriteProtect
  else if opcode = CMD_WRITE_UNPROTECT then cmd.WriteUnprotect
  else if opcode = CMD_NS_WRITE_MEMORY then cmd.NsWriteMemory
  else if opcode = CMD_NS_ERASE_MEMORY then cmd.NsEraseMemory
  else if opcode = CMD_NS_WRITE_PROTECT then cmd.NsWriteProtect
  else if opcode = CMD_NS_WRITE_UNPROTECT then cmd.NsWriteUnprotect
  else if opcode = CMD_NS_READ_PROTECT then cmd.NsReadoutProtect
  else if opcode = CMD_NS_READ_UNPROTECT then cmd.NsReadoutUnprotect
  else if opcode = CMD_SPEED then cmd.Speed
  else if opcode = CMD_SPECIAL_COMMAND then cmd.SpecialCommand
  else if opcode = CMD_EXTENDED_SPECIAL_COMMAND then
    cmd.ExtendedSpecialCommand
  else false

/-! ## Interface registry and detection (`openbl_core.c`) -/

/-- One registered interface handle: its capability table and (optional)
command table, as stored in `a_InterfacesTable`. -/
structure OPENBL_HandleTypeDef where
  p_Ops : OPENBL_OpsTypeDef
  p_Cmd : Option OPENBL_CommandsTypeDef
deriving DecidableEq, Repr

/-- Registry state: the registered prefix of `a_InterfacesTable`;
`NumberOfInterfaces` is its length.  `INTERFACES_SUPPORTED` (the array
capacity, declared in `interfaces_conf.h`) is passed as `cap`. -/
structure RegistryState where
  a_InterfacesTable : List OPENBL_HandleTypeDef
deriving DecidableEq, Repr

/-- `OPENBL_RegisterInterface` (openbl_core.c lines 597-614): if
`NumberOfInterfaces < INTERFACES_SUPPORTED`, copy the handle into the next
slot and increment the count; otherwise return `ERROR`. -/
def OPENBL_RegisterInterface (cap : Nat) (st : RegistryState)
    (iface : OPENBL_HandleTypeDef) : ErrorStatus × RegistryState :=
  if st.a_InterfacesTable.length < cap then
    (.SUCCESS, ⟨st.a_InterfacesTable ++ [iface]⟩)
  else
    (.ERROR, st)

/-- Loop body of `OPENBL_InterfaceDetection` starting at registry index `i`:
handles without a `Detection` capability are skipped; the first probed
handle whose detection reports activity (`env i = true`, where `env`
supplies this call's probe outcomes by registry index) is selected. -/
def detectFrom (env : Nat → Bool) :
    List OPENBL_HandleTypeDef → Nat → Option Nat
  | [], _ => none
  | h :: rest, i =>
    if h.p_Ops.hasDetection then
      if env i then some i else detectFrom env rest (i + 1)
    else detectFrom env rest (i + 1)

/-- `OPENBL_InterfaceDetection` (openbl_core.c lines 147-167): probe the
registered interfaces in registration order; return the index stored into
`p_Interface` when one reports activity, `none` otherwise. -/
def OPENBL_InterfaceDetection (st : RegistryState) (env : Nat → Bool) :
    Option Nat :=
  detectFrom env st.a_InterfacesTable 0

/-- Dispatcher state held by `OPENBL_Handler`: the `static` flag
`interface_detected` and the global `p_Interface` (as a registry index). -/
structure HandlerState where
  interface_detected : Bool
  p_Interface : Option Nat
deriving DecidableEq, Repr

/-- `OPENBL_Handler` (openbl_core.c lines 621-634): while undetected, run
the detection probe; once `interface_detected` is set, process one command.
Returns the new state and whether `OPENBL_CommandProcess` ran. -/
def OPENBL_Handler (st : RegistryState) (env : Nat → Bool)
    (hs : HandlerState) : HandlerState × Bool :=
  let hs1 :=
    if hs.interface_detected = false then
      match OPENBL_InterfaceDetection st env with
      | some i => { interface_detected := true, p_Interface := some i }
      | none => hs
    else hs
  (hs1, hs1.interface_detected)

/-! ## Concrete inputs used by the concrete evaluations below -/

/-- Erase payload bytes `[01 00 00 02]`: declared page count 1, single page
index `0x0200 = 512` (out of every bank range). -/
def c1data : Nat → Nat := fun i =>
  if i = 0 then 1 else if i = 3 then 2 else 0

/-- Erase payload bytes `[05 00 00 00 ...]`: declared page count 5, all page
index bytes zero. -/
def c3data : Nat → Nat := fun i => if i = 0 then 5 else 0

/-- Mass-erase payload with selector 3 (no valid bank set). -/
def c5data : Nat → Nat := fun i => if i = 0 then 3 else 0

/-- Command table with every handler absent (all `NULL`). -/
def cmdTableNone : OPENBL_CommandsTypeDef :=
  ⟨false, false, false, false, false, false, false, false, false, false,
   false, false, false, false, false, false, false, false, false, false⟩

/-- Capability table with every capability present. -/
def opsAll : OPENBL_OpsTypeDef := ⟨true, true, true, true, true⟩

/-- Capability table without a detect capability. -/
def opsNoDetect : OPENBL_OpsTypeDef := ⟨true, true, false, true, true⟩

/-- Transport handle with all capabilities and an empty command table. -/
def handleA : OPENBL_HandleTypeDef := ⟨opsAll, some cmdTableNone⟩

/-- Transport handle lacking the detect capability. -/
def handleNoDetect : OPENBL_HandleTypeDef := ⟨opsNoDetect, none⟩

/-! ## Helper lemmas -/

/-- Reindexing a bounded existential when peeling one loop iteration. -/
theorem exists_lt_succ_shift (P : Nat → Prop) (n c : Nat) :
    (∃ j, j < n + 1 ∧ P (c + j)) ↔ P c ∨ ∃ j, j < n ∧ P (c + 1 + j) := by
  constructor
  · rintro ⟨j, hj, hp⟩
    cases j with
    | zero => exact Or.inl (by simpa using hp)
    | succ j' =>
      refine Or.inr ⟨j', by omega, ?_⟩
      have harg : c + (j' + 1) = c + 1 + j' := by omega
      rw [harg] at hp
      exact hp
  · rintro (hp | ⟨j, hj, hp⟩)
    · exact ⟨0, by omega, by simpa using hp⟩
    · refine ⟨j + 1, by omega, ?_⟩
      have harg : c + (j + 1) = c + 1 + j := by omega
      rw [harg]
      exact hp

/-- The erase loop processes one page index per iteration: it never aborts
early, whatever the hardware outcomes. -/
theorem eraseLoop_reads_length (dbank : Bool) (hw : Nat → Bool)
    (data : Nat → Nat) :
    ∀ fuel counter,
      (eraseLoop dbank hw data fuel counter).reads.length = fuel := by
  intro fuel
  induction fuel with
  | zero => intro c; rfl
  | succ n ih =>
    intro c
    simp only [eraseLoop]
    split
    · simp [ih]
    · split
      · simp [ih]
      · simp [ih]


/-- The local failure counter of the erase loop is positive exactly when
some in-range processed page's hardware erase failed. -/
theorem eraseLoop_errors_pos (dbank : Bool) (hw : Nat → Bool)
    (data : Nat → Nat) :
    ∀ fuel counter,
      (0 < (eraseLoop dbank hw data fuel counter).errors ↔
        ∃ j, j < fuel ∧ pageInRange dbank (pageAt data (counter + j)) = true ∧
          hw (counter + j) = false) := by
  intro fuel
  induction fuel with
  | zero => intro c; simp [eraseLoop]
  | succ n ih =>
    intro c
    rw [exists_lt_succ_shift
      (fun m => pageInRange dbank (pageAt data m) = true ∧ hw m = false) n c]
    simp only [eraseLoop]
    split_ifs with h1 hhw1 h2 hhw2
    · dsimp only
      rw [Nat.zero_add, ih]
      simp [hhw1]
    · dsimp only
      refine iff_of_true (by omega) (Or.inl ⟨?_, ?_⟩)
      · simp [pageInRange, pageAt, h1]
      · simpa using hhw1
    · dsimp only
      rw [Nat.zero_add, ih]
      simp [hhw2]
    · dsimp only
      refine iff_of_true (by omega) (Or.inl ⟨?_, ?_⟩)
      · simp [pageInRange, pageAt, h2]
      · simpa using hhw2
    · dsimp only
      rw [ih]
      have hPc : pageInRange dbank (pageAt data c) = false := by
        simp only [pageInRange, pageAt, Bool.or_eq_false_iff,
          decide_eq_false_iff_not]
        exact ⟨h1, by simpa using h2⟩
      simp [hPc]

/-- The pages the erase loop actually submits to hardware are exactly the
in-range ones, in order, paired with their bank. -/
theorem eraseLoop_attempts_eq (dbank : Bool) (hw : Nat → Bool)
    (data : Nat → Nat) :
    ∀ fuel counter,
      (eraseLoop dbank hw data fuel counter).attempts =
        (List.range' counter fuel).filterMap (fun m =>
          if pageInRange dbank (pageAt data m) then
            some (pageAt data m,
              if pageAt data m ≤ 127 then FLASH_BANK_1 else FLASH_BANK_2)
          else none) := by
  intro fuel
  induction fuel with
  | zero => intro c; simp [eraseLoop]
  | succ n ih =>
    intro c
    have hpeel : List.range' c (n + 1) = c :: List.range' (c + 1) n := rfl
    rw [hpeel, List.filterMap_cons]
    simp only [eraseLoop]
    by_cases h1 : u16le data (2 + 2 * c) ≤ 127
    · have hin : pageInRange dbank (u16le data (2 + 2 * c)) = true := by
        simp [pageInRange, h1]
      simp [h1, hin, ih, pageAt]
    · by_cases h2 : (dbank && decide (u16le data (2 + 2 * c) ≤ 255)) = true
      · have hin : pageInRange dbank (u16le data (2 + 2 * c)) = true := by
          simp [pageInRange, h2]
        simp [h1, h2, hin, ih, pageAt]
      · have hin : pageInRange dbank (u16le data (2 + 2 * c)) = false := by
          simp only [pageInRange, Bool.or_eq_false_iff,
            decide_eq_false_iff_not]
          exact ⟨h1, by simpa using h2⟩
        simp [h1, h2, hin, ih, pageAt]

/-! ## Claim theorems and concrete evaluations -/

/-- Claim C1 (amended): in a page-erase call the loop never aborts early
(one page index is processed per iteration up to
`min(declared count, DataLength / 2)`), every in-range page index is
submitted to hardware erase even if earlier pages fail, but the returned
status is `ERROR` if and only if at least one *in-range* processed page's
hardware erase failed; an out-of-range page index is skipped without being
attempted and does not affect the returned status. -/
theorem OPENBL_FLASH_Erase_status_iff_hw_failure (dbank : Bool)
    (hw : Nat → Bool) (data : Nat → Nat) (dataLength : Nat) :
    ((OPENBL_FLASH_Erase dbank hw data dataLength).1 = ErrorStatus.ERROR ↔
      ∃ k, k < min (u16le data 0) (dataLength / 2) ∧
        pageInRange dbank (pageAt data k) = true ∧ hw k = false)
    ∧ (OPENBL_FLASH_Erase dbank hw data dataLength).2.reads.length =
        min (u16le data 0) (dataLength / 2)
    ∧ (OPENBL_FLASH_Erase dbank hw data dataLength).2.attempts =
        (List.range' 0 (min (u16le data 0) (dataLength / 2))).filterMap
          (fun m =>
            if pageInRange dbank (pageAt data m) then
              some (pageAt data m,
                if pageAt data m ≤ 127 then FLASH_BANK_1 else FLASH_BANK_2)
            else none) := by
  refine ⟨?_, ?_, ?_⟩
  · have hpos := eraseLoop_errors_pos dbank hw data
      (min (u16le data 0) (dataLength / 2)) 0
    simp only [Nat.zero_add] at hpos
    simp only [OPENBL_FLASH_Erase]
    rw [← hpos]
    split_ifs with h
    · simp [h]
    · simp [h]
  · simpa only [OPENBL_FLASH_Erase] using
      eraseLoop_reads_length dbank hw data
        (min (u16le data 0) (dataLength / 2)) 0
  · simpa only [OPENBL_FLASH_Erase] using
      eraseLoop_attempts_eq dbank hw data
        (min (u16le data 0) (dataLength / 2)) 0

/-- Claim C1, counterexample to the claim as stated: the payload declares
one page with index 512, which is out of every bank's range, and the
hardware erases cleanly; the claim as stated demands status `ERROR`
(an out-of-range processed page counts as a failed page), but the call
returns `SUCCESS` because the out-of-range page only resets the local
status and is never counted in `errors`. -/
theorem OPENBL_FLASH_Erase_out_of_range_page_not_an_error :
    ¬ (((OPENBL_FLASH_Erase false (fun _ => true) c1data 4).1 =
          ErrorStatus.ERROR) ↔
        ∃ k, k < min (u16le c1data 0) (4 / 2) ∧
          (pageInRange false (pageAt c1data k) = false ∨
            (fun _ : Nat => true) k = false)) := by
  intro h
  have hERR := h.mpr ⟨0, by decide, Or.inl (by decide)⟩
  have hOK : (OPENBL_FLASH_Erase false (fun _ => true) c1data 4).1 =
      ErrorStatus.SUCCESS := by decide
  exact ErrorStatus.noConfusion (hOK.symm.trans hERR)

/-- Claim C3 (amended): when the declared page count exceeds the page
indices available in the payload, the loop bound is `DataLength / 2`
(`DataLength` *including* the 2 count bytes), i.e. exactly
`floor(availableBytes / 2) + 1` page indices are processed — one more than
the claim's `floor(availableBytes / 2)`, the last one read past the
payload — and the call still returns `SUCCESS` if every processed page is
in range and erases cleanly. -/
theorem OPENBL_FLASH_Erase_truncated_payload (dbank : Bool)
    (hw : Nat → Bool) (data : Nat → Nat) (dataLength : Nat)
    (hlen : 2 ≤ dataLength)
    (hcount : (dataLength - 2) / 2 < u16le data 0) :
    (OPENBL_FLASH_Erase dbank hw data dataLength).2.reads.length =
      (dataLength - 2) / 2 + 1
    ∧ ((∀ k, k < dataLength / 2 →
          pageInRange dbank (pageAt data k) = true ∧ hw k = true) →
        (OPENBL_FLASH_Erase dbank hw data dataLength).1 =
          ErrorStatus.SUCCESS) := by
  have hmin : min (u16le data 0) (dataLength / 2) = dataLength / 2 :=
    Nat.min_eq_right (by omega)
  constructor
  · have hr := eraseLoop_reads_length dbank hw data
      (min (u16le data 0) (dataLength / 2)) 0
    simp only [OPENBL_FLASH_Erase]
    rw [hr, hmin]
    omega
  · intro hclean
    have hpos := eraseLoop_errors_pos dbank hw data
      (min (u16le data 0) (dataLength / 2)) 0
    simp only [Nat.zero_add] at hpos
    simp only [OPENBL_FLASH_Erase]
    split_ifs with h
    · exfalso
      obtain ⟨j, hj, _, hhw⟩ := hpos.mp h
      rw [hmin] at hj
      exact absurd ((hclean j hj).2) (by simp [hhw])
    · rfl

/-- Claim C3, counterexample to the claim as stated: payload
`[05 00 00 00]` declares 5 pages with `DataLength = 4`, so 2 bytes of page
indices are available; the claim says exactly
`floor(availableBytes / 2) = 1` page index is processed, but the loop
bound `DataLength / 2 = 2` processes two. -/
theorem OPENBL_FLASH_Erase_truncated_processes_one_extra :
    ¬ ((OPENBL_FLASH_Erase false (fun _ => true) c3data 4).2.reads.length =
        (4 - 2) / 2) := by decide

/-- Claim C3, witness: the amended theorem instantiated at the same
truncated payload: 2 pages are processed and, both erasing cleanly, the
call returns `SUCCESS`. -/
theorem OPENBL_FLASH_Erase_truncated_payload_witness :
    2 ≤ 4 ∧ (4 - 2) / 2 < u16le c3data 0 ∧
      (OPENBL_FLASH_Erase false (fun _ => true) c3data 4).2.reads.length =
        (4 - 2) / 2 + 1 ∧
      (OPENBL_FLASH_Erase false (fun _ => true) c3data 4).1 =
        ErrorStatus.SUCCESS :=
  ⟨by decide, by decide,
    (OPENBL_FLASH_Erase_truncated_payload false (fun _ => true) c3data 4
      (by decide) (by decide)).1,
    (OPENBL_FLASH_Erase_truncated_payload false (fun _ => true) c3data 4
      (by decide) (by decide)).2 (by decide)⟩

/-- Claim C2 (amended): the guard in `OPENBL_FLASH_SetReadOutProtectionLevel`
compares the *requested* level with level 2 and never consults the current
level: a request for level 2 performs no option-byte program write, while a
request for any other level (including 0 and 1, whatever the current
level) always performs exactly one option-byte program write of that
level. -/
theorem OPENBL_FLASH_SetReadOutProtectionLevel_guard (level : Nat) :
    ((OPENBL_FLASH_SetReadOutProtectionLevel level).obProgramWrites = [] ↔
      level = OB_RDP_LEVEL2)
    ∧ (level ≠ OB_RDP_LEVEL2 →
        (OPENBL_FLASH_SetReadOutProtectionLevel level).obProgramWrites =
          [level]) := by
  constructor
  · unfold OPENBL_FLASH_SetReadOutProtectionLevel
    split_ifs with h
    · simp [h]
    · simp only [not_not] at h
      simp [h]
  · intro h
    simp [OPENBL_FLASH_SetReadOutProtectionLevel, h]

/-- Claim C2, counterexample to the claim as stated: a request for level 0
performs an option-byte program write unconditionally — in particular also
when the current read-out protection level is 2 — because the code only
tests the requested level, so the claimed rejection with no protection
register write does not happen. -/
theorem OPENBL_FLASH_SetReadOutProtectionLevel_level0_writes :
    ¬ ((OPENBL_FLASH_SetReadOutProtectionLevel OB_RDP_LEVEL0).obProgramWrites
        = []) := by decide

/-- Claim C2, witness: the amended theorem applied at requested level 1:
the call performs the option-byte write `[1]`. -/
theorem OPENBL_FLASH_SetReadOutProtectionLevel_guard_witness :
    OB_RDP_LEVEL1 ≠ OB_RDP_LEVEL2 ∧
      (OPENBL_FLASH_SetReadOutProtectionLevel OB_RDP_LEVEL1).obProgramWrites
        = [OB_RDP_LEVEL1] :=
  ⟨by decide,
    (OPENBL_FLASH_SetReadOutProtectionLevel_guard OB_RDP_LEVEL1).2
      (by decide)⟩

/-- Claim C10: every call to `OPENBL_FLASH_SetReadOutProtectionLevel`
registers the reset post-processing callback (`OPENBL_OB_Launch`),
including the request for level 2, which performs no option-byte program
write at all. -/
theorem OPENBL_FLASH_SetReadOutProtectionLevel_always_registers_callback
    (level : Nat) :
    (OPENBL_FLASH_SetReadOutProtectionLevel level).postCallbackRegistered =
      true
    ∧ (OPENBL_FLASH_SetReadOutProtectionLevel
        OB_RDP_LEVEL2).obProgramWrites = []
    ∧ (OPENBL_FLASH_SetReadOutProtectionLevel
        OB_RDP_LEVEL2).postCallbackRegistered = true := by
  refine ⟨?_, by decide, by decide⟩
  unfold OPENBL_FLASH_SetReadOutProtectionLevel
  split_ifs <;> rfl

/-- Claim C5: mass erase with at least 2 payload bytes interprets the
2-byte little-endian selector as 0 = all banks, 1 = bank one, and (on
dual-bank parts) 2 = bank two, the call status reflecting the hardware
erase outcome; any other selector value returns `ERROR` with no erase
performed, and a payload shorter than 2 bytes returns `ERROR` with no
erase performed. -/
theorem OPENBL_FLASH_MassErase_selector (dbank : Bool) (hw : HALStatus)
    (data : Nat → Nat) (dataLength : Nat) :
    (dataLength < 2 →
      OPENBL_FLASH_MassErase dbank hw data dataLength =
        (ErrorStatus.ERROR, none))
    ∧ (2 ≤ dataLength → u16le data 0 = 0 →
        OPENBL_FLASH_MassErase dbank hw data dataLength =
          ((if hw = HALStatus.HAL_OK then ErrorStatus.SUCCESS
            else ErrorStatus.ERROR), some 0))
    ∧ (2 ≤ dataLength → u16le data 0 = 1 →
        OPENBL_FLASH_MassErase dbank hw data dataLength =
          ((if hw = HALStatus.HAL_OK then ErrorStatus.SUCCESS
            else ErrorStatus.ERROR), some FLASH_BANK_1))
    ∧ (2 ≤ dataLength → dbank = true → u16le data 0 = 2 →
        OPENBL_FLASH_MassErase dbank hw data dataLength =
          ((if hw = HALStatus.HAL_OK then ErrorStatus.SUCCESS
            else ErrorStatus.ERROR), some FLASH_BANK_2))
    ∧ (2 ≤ dataLength → u16le data 0 ≠ 0 → u16le data 0 ≠ 1 →
        (dbank = true → u16le data 0 ≠ 2) →
        OPENBL_FLASH_MassErase dbank hw data dataLength =
          (ErrorStatus.ERROR, none)) := by
  refine ⟨?_, ?_, ?_, ?_, ?_⟩
  · intro hlt
    simp [OPENBL_FLASH_MassErase, Nat.not_le.mpr hlt]
  · intro hge hsel
    simp [OPENBL_FLASH_MassErase, hge, hsel, FLASH_MASS_ERASE]
  · intro hge hsel
    simp [OPENBL_FLASH_MassErase, hge, hsel, FLASH_MASS_ERASE,
      FLASH_BANK1_ERASE]
  · intro hge hdb hsel
    simp [OPENBL_FLASH_MassErase, hge, hsel, hdb, FLASH_MASS_ERASE,
      FLASH_BANK1_ERASE, FLASH_BANK2_ERASE]
  · intro hge h0 h1 h2
    have hband : (dbank && decide (u16le data 0 = FLASH_BANK2_ERASE)) =
        false := by
      cases hdb : dbank
      · simp
      · simp [FLASH_BANK2_ERASE, h2 hdb]
    simp [OPENBL_FLASH_MassErase, hge, h0, h1, hband, FLASH_MASS_ERASE,
      FLASH_BANK1_ERASE]

/-- Claim C5, witness: the selector cases evaluated concretely — selector 0
with clean hardware erases all banks with `SUCCESS`; selector 3 returns
`ERROR` with no erase; a 1-byte payload returns `ERROR` with no erase. -/
theorem OPENBL_FLASH_MassErase_selector_witness :
    OPENBL_FLASH_MassErase true HALStatus.HAL_OK (fun _ => 0) 2 =
      (ErrorStatus.SUCCESS, some 0)
    ∧ OPENBL_FLASH_MassErase true HALStatus.HAL_OK c5data 2 =
      (ErrorStatus.ERROR, none)
    ∧ OPENBL_FLASH_MassErase true HALStatus.HAL_OK (fun _ => 0) 1 =
      (ErrorStatus.ERROR, none) :=
  ⟨by
    have := (OPENBL_FLASH_MassErase_selector true HALStatus.HAL_OK
      (fun _ => 0) 2).2.1 (by decide) (by decide)
    simpa using this,
  by
    have := (OPENBL_FLASH_MassErase_selector true HALStatus.HAL_OK
      c5data 2).2.2.2.2 (by decide) (by decide) (by decide)
      (fun _ => by decide)
    simpa using this,
  by
    have := (OPENBL_FLASH_MassErase_selector true HALStatus.HAL_OK
      (fun _ => 0) 1).1 (by decide)
    simpa using this⟩

/-- Claim C6 (amended): with `DataLength` not a multiple of the unit,
exactly `ceil(DataLength/unit) * unit` bytes are programmed — on quad-word
parts unconditionally, the final unit coming from the scratch buffer whose
bytes at and beyond the remainder are `0xFF`; on double-word parts
provided the rounded-up bound does not overflow 32 bits
(`DataLength ≤ 0xFFFFFFF8`) — for larger 32-bit lengths the bound
`(DataLength & 0xFFFFFFF8) + 8` wraps to 0 and nothing is programmed. -/
theorem OPENBL_FLASH_Write_rounds_up_to_unit (address : Nat)
    (data : Nat → Nat) (dataLength : Nat) :
    (dataLength % 16 ≠ 0 →
      (((OPENBL_FLASH_Write_quad address data dataLength).map
          fun p => p.2.length).sum = ((dataLength + 16 - 1) / 16) * 16
      ∧ (OPENBL_FLASH_Write_quad address data dataLength).getLast? =
          some (address + (dataLength - dataLength % 16),
            remainderData data (dataLength - dataLength % 16)
              (dataLength % 16))
      ∧ ∀ i, dataLength % 16 ≤ i → i < 16 →
          (remainderData data (dataLength - dataLength % 16)
            (dataLength % 16)).get? i = some 0xFF))
    ∧ (dataLength % 8 ≠ 0 → dataLength ≤ 0xFFFFFFF8 →
        8 * (OPENBL_FLASH_Write_dw address dataLength).length =
          ((dataLength + 8 - 1) / 8) * 8) := by
  constructor
  · intro hrem
    refine ⟨?_, ?_, ?_⟩
    · have hmain : ((((List.range ((dataLength - dataLength % 16) / 16)).map
          fun k => (address + 16 * k, quadChunk data (16 * k))).map
            fun p => p.2.length).sum) =
          ((dataLength - dataLength % 16) / 16) * 16 := by
        rw [List.map_map]
        simp [Function.comp_def, quadChunk, List.map_const',
          List.sum_replicate, smul_eq_mul, Nat.mul_comm]
      have hrd : (remainderData data (dataLength - dataLength % 16)
          (dataLength % 16)).length = 16 := by
        simp [remainderData]
      simp only [OPENBL_FLASH_Write_quad, if_pos hrem, List.map_append,
        List.sum_append]
      rw [hmain]
      simp [hrd]
      omega
    · simp [OPENBL_FLASH_Write_quad, hrem]
    · intro i hge hlt
      simp only [remainderData, List.get?_map]
      rw [List.get?_range hlt]
      simp [Nat.not_lt.mpr hge]
  · intro hrem hle
    have hlt : dataLength - dataLength % 8 + 8 < 2 ^ 32 := by omega
    simp only [OPENBL_FLASH_Write_dw, if_pos hrem, List.length_map,
      List.length_range, Nat.mod_eq_of_lt hlt]
    omega

/-- Claim C6, counterexample to the claim as stated: on a double-word part
with `DataLength = 0xFFFFFFFF` (not a multiple of 8) the rounded-up loop
bound `(DataLength & 0xFFFFFFF8) + 8` wraps to 0 in `uint32_t`, so 0 bytes
are programmed instead of the claimed `ceil(DataLength/8) * 8`. -/
theorem OPENBL_FLASH_Write_dw_bound_wraps :
    ¬ (8 * (OPENBL_FLASH_Write_dw 0 0xFFFFFFFF).length =
        ((0xFFFFFFFF + 8 - 1) / 8) * 8) := by decide

/-- Claim C6, witness: the amended theorem at `DataLength = 5` — the
quad-word path programs 16 bytes with scratch bytes 5..15 equal to `0xFF`,
and the double-word path programs 8 bytes. -/
theorem OPENBL_FLASH_Write_rounds_up_to_unit_witness :
    (5 % 16 ≠ 0 ∧
      ((OPENBL_FLASH_Write_quad 0 (fun _ => 0xAB) 5).map
        fun p => p.2.length).sum = ((5 + 16 - 1) / 16) * 16 ∧
      (remainderData (fun _ => 0xAB) (5 - 5 % 16) (5 % 16)).get? 7 =
        some 0xFF)
    ∧ (5 % 8 ≠ 0 ∧ (5 : Nat) ≤ 0xFFFFFFF8 ∧
        8 * (OPENBL_FLASH_Write_dw 0 5).length = ((5 + 8 - 1) / 8) * 8) :=
  ⟨⟨by decide,
    ((OPENBL_FLASH_Write_rounds_up_to_unit 0 (fun _ => 0xAB) 5).1
      (by decide)).1,
    ((OPENBL_FLASH_Write_rounds_up_to_unit 0 (fun _ => 0xAB) 5).1
      (by decide)).2.2 7 (by decide) (by decide)⟩,
   ⟨by decide, by decide,
    (OPENBL_FLASH_Write_rounds_up_to_unit 0 (fun _ => 0xAB) 5).2
      (by decide) (by decide)⟩⟩

/-- The busy loop exits with a timeout exactly when the busy flag outlasts
`bound + 2 - tick` polls (the code checks `tick++ > Timeout`). -/
theorem waitBusyLoop_eq_true_iff :
    ∀ busy tick bound, (waitBusyLoop busy tick bound = true ↔
      0 < busy ∧ bound + 2 ≤ tick + busy) := by
  intro busy
  induction busy with
  | zero => intro tick bound; simp [waitBusyLoop]
  | succ n ih =>
    intro tick bound
    simp only [waitBusyLoop]
    split_ifs with h
    · simp
      omega
    · rw [ih]
      constructor
      · rintro ⟨hn, hb⟩
        exact ⟨by omega, by omega⟩
      · rintro ⟨-, hb⟩
        have hn : 0 < n := by omega
        exact ⟨hn, by omega⟩

/-- The keep-alive busy loop times out under the same condition as the
plain busy loop and sends one busy byte per non-timeout busy poll:
`min busy (bound + 1 - tick)` bytes in total. -/
theorem sendBusyLoop_eq :
    ∀ busy tick bound, sendBusyLoop busy tick bound =
      (waitBusyLoop busy tick bound, min busy (bound + 1 - tick)) := by
  intro busy
  induction busy with
  | zero => intro tick bound; simp [sendBusyLoop, waitBusyLoop]
  | succ n ih =>
    intro tick bound
    simp only [sendBusyLoop, waitBusyLoop]
    split_ifs with h
    · have : min (n + 1) (bound + 1 - tick) = 0 := by omega
      rw [this]
    · rw [ih]
      have : min n (bound + 1 - (tick + 1)) + 1 =
          min (n + 1) (bound + 1 - tick) := by omega
      rw [this]

/-- Claim C4 (amended): both wait variants poll the busy flag for a bounded
number of iterations and return `HAL_TIMEOUT` (distinct from the error
status) exactly when the bound is exceeded; once busy clears, any latched
error flag makes the call return `HAL_ERROR` — and `HAL_OK` otherwise —
with the hardware error flags cleared.  Neither variant clears
`FlashProcess.ErrorCode` at entry: `OPENBL_FLASH_WaitForLastOperation`
only ORs the latched flags into it (leaving it untouched on timeout), and
`OPENBL_FLASH_SendBusyState` never touches it at all; the keep-alive
variant additionally sends one busy byte per non-timeout busy poll. -/
theorem OPENBL_FLASH_wait_variants (bound : Nat) (hw : FlashSR) (ec : Nat) :
    ((OPENBL_FLASH_WaitForLastOperation bound hw ec).1 =
        HALStatus.HAL_TIMEOUT ↔ bound + 2 ≤ hw.busyCount)
    ∧ ((OPENBL_FLASH_SendBusyState bound hw ec).1 =
        HALStatus.HAL_TIMEOUT ↔ bound + 2 ≤ hw.busyCount)
    ∧ (hw.busyCount < bound + 2 →
        (((OPENBL_FLASH_WaitForLastOperation bound hw ec).1 =
            HALStatus.HAL_ERROR ↔ hw.srErrors ≠ 0)
        ∧ ((OPENBL_FLASH_WaitForLastOperation bound hw ec).1 =
            HALStatus.HAL_OK ↔ hw.srErrors = 0)
        ∧ (OPENBL_FLASH_WaitForLastOperation bound hw ec).2.1.srErrors = 0
        ∧ (OPENBL_FLASH_WaitForLastOperation bound hw ec).2.2 =
            ec ||| hw.srErrors))
    ∧ (bound + 2 ≤ hw.busyCount →
        (OPENBL_FLASH_WaitForLastOperation bound hw ec).2.2 = ec)
    ∧ (OPENBL_FLASH_SendBusyState bound hw ec).2.2.1 = ec
    ∧ (hw.busyCount < bound + 2 →
        (((OPENBL_FLASH_SendBusyState bound hw ec).1 =
            HALStatus.HAL_ERROR ↔ hw.srErrors ≠ 0)
        ∧ ((OPENBL_FLASH_SendBusyState bound hw ec).1 =
            HALStatus.HAL_OK ↔ hw.srErrors = 0)
        ∧ (OPENBL_FLASH_SendBusyState bound hw ec).2.1.srErrors = 0))
    ∧ (OPENBL_FLASH_SendBusyState bound hw ec).2.2.2 =
        min hw.busyCount (bound + 1) := by
  have hWiff : waitBusyLoop hw.busyCount 0 bound = true ↔
      bound + 2 ≤ hw.busyCount := by
    rw [waitBusyLoop_eq_true_iff]
    omega
  by_cases hT : bound + 2 ≤ hw.busyCount
  · have hWtrue : waitBusyLoop hw.busyCount 0 bound = true := hWiff.mpr hT
    simp [OPENBL_FLASH_WaitForLastOperation, OPENBL_FLASH_SendBusyState,
      sendBusyLoop_eq, hWtrue, hT]
  · have hWfalse : waitBusyLoop hw.busyCount 0 bound = false := by
      cases h : waitBusyLoop hw.busyCount 0 bound
      · rfl
      · exact absurd (hWiff.mp h) hT
    by_cases hE : hw.srErrors = 0
    · simp [OPENBL_FLASH_WaitForLastOperation, OPENBL_FLASH_SendBusyState,
        sendBusyLoop_eq, hWfalse, hT, hE]
    · simp [OPENBL_FLASH_WaitForLastOperation, OPENBL_FLASH_SendBusyState,
        sendBusyLoop_eq, hWfalse, hT, hE]

/-- Claim C4, counterexample to the claim as stated: with no busy polls, no
latched error flags and `FlashProcess.ErrorCode = 5` at entry,
`OPENBL_FLASH_WaitForLastOperation` returns with the bitmask still 5 —
the claimed clearing of the bitmask at the start of the call does not
happen (it is `OPENBL_FLASH_ExtendedErase` that resets it). -/
theorem OPENBL_FLASH_WaitForLastOperation_does_not_clear_ErrorCode :
    ¬ ((OPENBL_FLASH_WaitForLastOperation 10 ⟨0, 0, false⟩ 5).2.2 = 0) := by
  decide

/-- Claim C4, witness: the amended theorem at `bound = 3`,
`busyCount = 2`, latched error mask 4 and entry bitmask 1: no timeout, the
plain variant returns `HAL_ERROR` with bitmask `1 ||| 4 = 5` and clears
the hardware flags, the keep-alive variant leaves the bitmask at 1 and
sends 2 busy bytes. -/
theorem OPENBL_FLASH_wait_variants_witness :
    (FlashSR.mk 2 4 true).busyCount < 3 + 2
    ∧ (OPENBL_FLASH_WaitForLastOperation 3 ⟨2, 4, true⟩ 1).1 =
        HALStatus.HAL_ERROR
    ∧ (OPENBL_FLASH_WaitForLastOperation 3 ⟨2, 4, true⟩ 1).2.2 = 1 ||| 4
    ∧ (OPENBL_FLASH_SendBusyState 3 ⟨2, 4, true⟩ 1).2.2.1 = 1
    ∧ (OPENBL_FLASH_SendBusyState 3 ⟨2, 4, true⟩ 1).2.2.2 = min 2 (3 + 1) :=
  ⟨by decide,
    ((OPENBL_FLASH_wait_variants 3 ⟨2, 4, true⟩ 1).2.2.1 (by decide)).1.mpr
      (by decide),
    ((OPENBL_FLASH_wait_variants 3 ⟨2, 4, true⟩ 1).2.2.1 (by decide)).2.2.2,
    (OPENBL_FLASH_wait_variants 3 ⟨2, 4, true⟩ 1).2.2.2.2.1,
    (OPENBL_FLASH_wait_variants 3 ⟨2, 4, true⟩ 1).2.2.2.2.2.2⟩

set_option maxHeartbeats 1600000 in
/-- Claim C7: on a transport with a get-opcode capability, any received
opcode whose handler is absent from the command table (including every
unknown opcode) makes the dispatcher send exactly one `NACK_BYTE` when the
transport has a send-byte capability and nothing otherwise, and invokes no
handler (no memory side effect); the legacy-erase and extended-erase
opcodes both route to the same erase handler. -/
theorem OPENBL_CommandProcess_nack_and_erase_routing
    (ops : OPENBL_OpsTypeDef) (cmd : OPENBL_CommandsTypeDef)
    (opcode : Nat) (hget : ops.hasGetCommandOpcode = true) :
    (handlerPresent cmd opcode = false →
      OPENBL_CommandProcess ops cmd opcode =
        ((if ops.hasSendByte then [NACK_BYTE] else []), none))
    ∧ (cmd.EraseMemory = true →
        (OPENBL_CommandProcess ops cmd CMD_EXT_ERASE_MEMORY).2 =
          some CmdSlot.eraseMemory
        ∧ (OPENBL_CommandProcess ops cmd CMD_LEG_ERASE_MEMORY).2 =
          some CmdSlot.eraseMemory) := by
  constructor
  · intro habs
    unfold OPENBL_CommandProcess
    unfold handlerPresent at habs
    rw [hget]
    rw [if_pos rfl]
    by_cases hc1 : opcode = CMD_GET_COMMAND
    · rw [if_pos hc1] at habs ⊢
      cases hsb : ops.hasSendByte <;> simp [caseInvoke, habs, hsb]
    rw [if_neg hc1] at habs ⊢
    by_cases hc2 : opcode = CMD_GET_VERSION
    · rw [if_pos hc2] at habs ⊢
      cases hsb : ops.hasSendByte <;> simp [caseInvoke, habs, hsb]
    rw [if_neg hc2] at habs ⊢
    by_cases hc3 : opcode = CMD_GET_ID
    · rw [if_pos hc3] at habs ⊢
      cases hsb : ops.hasSendByte <;> simp [caseInvoke, habs, hsb]
    rw [if_neg hc3] at habs ⊢
    by_cases hc4 : opcode = CMD_READ_MEMORY
    · rw [if_pos hc4] at habs ⊢
      cases hsb : ops.hasSendByte <;> simp [caseInvoke, habs, hsb]
    rw [if_neg hc4] at habs ⊢
    by_cases hc5 : opcode = CMD_WRITE_MEMORY
    · rw [if_pos hc5] at habs ⊢
      cases hsb : ops.hasSendByte <;> simp [caseInvoke, habs, hsb]
    rw [if_neg hc5] at habs ⊢
    by_cases hc6 : opcode = CMD_GO
    · rw [if_pos hc6] at habs ⊢
      cases hsb : ops.hasSendByte <;> simp [caseInvoke, habs, hsb]
    rw [if_neg hc6] at habs ⊢
    by_cases hc7 : opcode = CMD_READ_PROTECT
    · rw [if_pos hc7] at habs ⊢
      cases hsb : ops.hasSendByte <;> simp [caseInvoke, habs, hsb]
    rw [if_neg hc7] at habs ⊢
    by_cases hc8 : opcode = CMD_READ_UNPROTECT
    · rw [if_pos hc8] at habs ⊢
      cases hsb : ops.hasSendByte <;> simp [caseInvoke, habs, hsb]
    rw [if_neg hc8] at habs ⊢
    by_cases hc9 : opcode = CMD_EXT_ERASE_MEMORY
    · rw [if_pos hc9] at habs ⊢
      cases hsb : ops.hasSendByte <;> simp [caseInvoke, habs, hsb]
    rw [if_neg hc9] at habs ⊢
    by_cases hc10 : opcode = CMD_LEG_ERASE_MEMORY
    · rw [if_pos hc10] at habs ⊢
      cases hsb : ops.hasSendByte <;> simp [caseInvoke, habs, hsb]
    rw [if_neg hc10] at habs ⊢
    by_cases hc11 : opcode = CMD_WRITE_PROTECT
    · rw [if_pos hc11] at habs ⊢
      cases hsb : ops.hasSendByte <;> simp [caseInvoke, habs, hsb]
    rw [if_neg hc11] at habs ⊢
    by_cases hc12 : opcode = CMD_WRITE_UNPROTECT
    · rw [if_pos hc12] at habs ⊢
      cases hsb : ops.hasSendByte <;> simp [caseInvoke, habs, hsb]
    rw [if_neg hc12] at habs ⊢
    by_cases hc13 : opcode = CMD_NS_WRITE_MEMORY
    · rw [if_pos hc13] at habs ⊢
      cases hsb : ops.hasSendByte <;> simp [caseInvoke, habs, hsb]
    rw [if_neg hc13] at habs ⊢
    by_cases hc14 : opcode = CMD_NS_ERASE_MEMORY
    · rw [if_pos hc14] at habs ⊢
      cases hsb : ops.hasSendByte <;> simp [caseInvoke, habs, hsb]
    rw [if_neg hc14] at habs ⊢
    by_cases hc15 : opcode = CMD_NS_WRITE_PROTECT
    · rw [if_pos hc15] at habs ⊢
      cases hsb : ops.hasSendByte <;> simp [caseInvoke, habs, hsb]
    rw [if_neg hc15] at habs ⊢
    by_cases hc16 : opcode = CMD_NS_WRITE_UNPROTECT
    · rw [if_pos hc16] at habs ⊢
      cases hsb : ops.hasSendByte <;> simp [caseInvoke, habs, hsb]
    rw [if_neg hc16] at habs ⊢
    by_cases hc17 : opcode = CMD_NS_READ_PROTECT
    · rw [if_pos hc17] at habs ⊢
      cases hsb : ops.hasSendByte <;> simp [caseInvoke, habs, hsb]
    rw [if_neg hc17] at habs ⊢
    by_cases hc18 : opcode = CMD_NS_READ_UNPROTECT
    · rw [if_pos hc18] at habs ⊢
      cases hsb : ops.hasSendByte <;> simp [caseInvoke, habs, hsb]
    rw [if_neg hc18] at habs ⊢
    by_cases hc19 : opcode = CMD_SPEED
    · rw [if_pos hc19] at habs ⊢
      cases hsb : ops.hasSendByte <;> simp [caseInvoke, habs, hsb]
    rw [if_neg hc19] at habs ⊢
    by_cases hc20 : opcode = CMD_SPECIAL_COMMAND
    · rw [if_pos hc20] at habs ⊢
      cases hsb : ops.hasSendByte <;> simp [caseInvoke, habs, hsb]
    rw [if_neg hc20] at habs ⊢
    by_cases hc21 : opcode = CMD_EXTENDED_SPECIAL_COMMAND
    · rw [if_pos hc21] at habs ⊢
      cases hsb : ops.hasSendByte <;> simp [caseInvoke, habs, hsb]
    rw [if_neg hc21] at habs ⊢
    cases hsb : ops.hasSendByte <;> simp [hsb]
  · intro hpres
    constructor
    · simp [OPENBL_CommandProcess, hget, caseInvoke, hpres,
        CMD_EXT_ERASE_MEMORY, CMD_GET_COMMAND, CMD_GET_VERSION, CMD_GET_ID,
        CMD_READ_MEMORY, CMD_WRITE_MEMORY, CMD_GO, CMD_READ_PROTECT,
        CMD_READ_UNPROTECT]
    · simp [OPENBL_CommandProcess, hget, caseInvoke, hpres,
        CMD_LEG_ERASE_MEMORY, CMD_EXT_ERASE_MEMORY, CMD_GET_COMMAND,
        CMD_GET_VERSION, CMD_GET_ID, CMD_READ_MEMORY, CMD_WRITE_MEMORY,
        CMD_GO, CMD_READ_PROTECT, CMD_READ_UNPROTECT]

/-- Claim C7, witness: on a transport with all capabilities and an empty
command table, the unknown opcode `0xAB` yields exactly one `NACK_BYTE`
and no handler invocation. -/
theorem OPENBL_CommandProcess_nack_witness :
    opsAll.hasGetCommandOpcode = true
    ∧ handlerPresent cmdTableNone 0xAB = false
    ∧ OPENBL_CommandProcess opsAll cmdTableNone 0xAB =
        ([NACK_BYTE], none) := by
  refine ⟨by decide, by decide, ?_⟩
  have h := (OPENBL_CommandProcess_nack_and_erase_routing opsAll
    cmdTableNone 0xAB (by decide)).1 (by decide)
  simpa using h

/-- Claim C8: when the registry already holds `INTERFACES_SUPPORTED`
entries, the next `OPENBL_RegisterInterface` call returns `ERROR` and
leaves the registry unchanged, still holding exactly that many entries. -/
theorem OPENBL_RegisterInterface_full (cap : Nat) (st : RegistryState)
    (iface : OPENBL_HandleTypeDef)
    (hfull : st.a_InterfacesTable.length = cap) :
    OPENBL_RegisterInterface cap st iface = (ErrorStatus.ERROR, st)
    ∧ (OPENBL_RegisterInterface cap st iface).2.a_InterfacesTable.length =
        cap := by
  have hnot : ¬ st.a_InterfacesTable.length < cap := by omega
  constructor
  · simp [OPENBL_RegisterInterface, hnot]
  · simp [OPENBL_RegisterInterface, hnot, hfull]

/-- Claim C8, witness: a registry at capacity 1 rejects the second
registration and keeps its single entry. -/
theorem OPENBL_RegisterInterface_full_witness :
    (RegistryState.mk [handleA]).a_InterfacesTable.length = 1
    ∧ OPENBL_RegisterInterface 1 (RegistryState.mk [handleA]) handleNoDetect
        = (ErrorStatus.ERROR, RegistryState.mk [handleA]) :=
  ⟨by decide,
    (OPENBL_RegisterInterface_full 1 (RegistryState.mk [handleA])
      handleNoDetect (by decide)).1⟩

/-- Soundness of the detection loop: a selected index lies in the table,
has a detect capability that reported activity, and is the first such
index — earlier handles either lack the capability or reported nothing. -/
theorem detectFrom_sound (env : Nat → Bool) :
    ∀ (l : List OPENBL_HandleTypeDef) (base i : Nat),
      detectFrom env l base = some i →
      base ≤ i
      ∧ (∃ h, l.get? (i - base) = some h ∧ h.p_Ops.hasDetection = true
          ∧ env i = true)
      ∧ ∀ j, base ≤ j → j < i → ∀ h', l.get? (j - base) = some h' →
          h'.p_Ops.hasDetection = true → env j = false := by
  intro l
  induction l with
  | nil => intro base i h; simp [detectFrom] at h
  | cons hd tl ih =>
    intro base i h
    simp only [detectFrom] at h
    by_cases hdet : hd.p_Ops.hasDetection
    · rw [if_pos hdet] at h
      by_cases henv : env base
      · rw [if_pos henv] at h
        have hib : base = i := by injection h
        subst hib
        refine ⟨Nat.le_refl base, ⟨hd, by simp, hdet, henv⟩, ?_⟩
        intro j hbj hji
        exact absurd hji (by omega)
      · rw [if_neg henv] at h
        obtain ⟨hle, ⟨h1, hget, hhd, henvi⟩, hmin⟩ := ih (base + 1) i h
        refine ⟨by omega, ⟨h1, ?_, hhd, henvi⟩, ?_⟩
        · have hidx : i - base = (i - (base + 1)) + 1 := by omega
          rw [hidx, List.get?_cons_succ]
          exact hget
        · intro j hbj hji h' hget' hdet'
          rcases Nat.eq_or_lt_of_le hbj with heq | hlt
          · subst heq
            simpa using henv
          · have hidx : j - base = (j - (base + 1)) + 1 := by omega
            rw [hidx, List.get?_cons_succ] at hget'
            exact hmin j (by omega) hji h' hget' hdet'
    · rw [if_neg hdet] at h
      obtain ⟨hle, ⟨h1, hget, hhd, henvi⟩, hmin⟩ := ih (base + 1) i h
      refine ⟨by omega, ⟨h1, ?_, hhd, henvi⟩, ?_⟩
      · have hidx : i - base = (i - (base + 1)) + 1 := by omega
        rw [hidx, List.get?_cons_succ]
        exact hget
      · intro j hbj hji h' hget' hdet'
        rcases Nat.eq_or_lt_of_le hbj with heq | hlt
        · subst heq
          rw [Nat.sub_self, List.get?_cons_zero] at hget'
          injection hget' with hh'
          exact absurd (hh' ▸ hdet') (by simpa using hdet)
        · have hidx : j - base = (j - (base + 1)) + 1 := by omega
          rw [hidx, List.get?_cons_succ] at hget'
          exact hmin j (by omega) hji h' hget' hdet'

/-- Claim C9: while no transport has been detected, `OPENBL_Handler`
probes the registered transports in registration order, skipping those
without a detect capability (they are never selected); the first transport
reporting activity becomes the remembered active interface, and once the
state is detected it is terminal — a later call neither re-probes nor
changes the active interface. -/
theorem OPENBL_Handler_detection (st : RegistryState) (env : Nat → Bool)
    (hs : HandlerState) :
    (hs.interface_detected = true → OPENBL_Handler st env hs = (hs, true))
    ∧ (hs.interface_detected = false →
        (OPENBL_InterfaceDetection st env = none →
          (OPENBL_Handler st env hs).1 = hs
          ∧ (OPENBL_Handler st env hs).2 = false)
        ∧ ∀ i, OPENBL_InterfaceDetection st env = some i →
            (OPENBL_Handler st env hs).1 =
              { interface_detected := true, p_Interface := some i }
            ∧ (∃ h, st.a_InterfacesTable.get? i = some h ∧
                h.p_Ops.hasDetection = true ∧ env i = true)
            ∧ ∀ j, j < i → ∀ h', st.a_InterfacesTable.get? j = some h' →
                h'.p_Ops.hasDetection = true → env j = false) := by
  refine ⟨?_, ?_⟩
  · intro hdet
    simp [OPENBL_Handler, hdet]
  · intro hundet
    constructor
    · intro hnone
      constructor
      · simp [OPENBL_Handler, hundet, hnone]
      · simp [OPENBL_Handler, hundet, hnone]
    · intro i hsome
      obtain ⟨-, ⟨h, hget, hd, he⟩, hmin⟩ := detectFrom_sound env
        st.a_InterfacesTable 0 i
        (by simpa [OPENBL_InterfaceDetection] using hsome)
      refine ⟨by simp [OPENBL_Handler, hundet, hsome], ⟨h, ?_, hd, he⟩, ?_⟩
      · simpa using hget
      · intro j hj h' hget' hdet'
        exact hmin j (Nat.zero_le j) hj h' (by simpa using hget') hdet'

/-- Claim C9, witness: with a detect-less transport registered first and a
detect-capable one second, both environments reporting activity, the
handler selects index 1 (skipping index 0), and a detected state is left
unchanged by a further call. -/
theorem OPENBL_Handler_detection_witness :
    (HandlerState.mk false none).interface_detected = false
    ∧ OPENBL_InterfaceDetection
        (RegistryState.mk [handleNoDetect, handleA]) (fun _ => true) =
        some 1
    ∧ (OPENBL_Handler (RegistryState.mk [handleNoDetect, handleA])
        (fun _ => true) (HandlerState.mk false none)).1 =
        { interface_detected := true, p_Interface := some 1 }
    ∧ OPENBL_Handler (RegistryState.mk [handleNoDetect, handleA])
        (fun _ => false) (HandlerState.mk true (some 1)) =
        (HandlerState.mk true (some 1), true) :=
  ⟨rfl, by decide,
    (((OPENBL_Handler_detection (RegistryState.mk [handleNoDetect, handleA])
      (fun _ => true) (HandlerState.mk false none)).2 rfl).2 1
      (by decide)).1,
    (OPENBL_Handler_detection (RegistryState.mk [handleNoDetect, handleA])
      (fun _ => false) (HandlerState.mk true (some 1))).1 rfl⟩
